import Mathlib

/-!
Verification of the chat_api_lab orchestration pipeline
(src/Python/src/agent/orchestrator_agent.py and src/Python/src/plugins/...).

Shallow embedding conventions:
* JSON values decoded by json.loads are modelled by the inductive `Json`
  (numbers as rationals; Python dicts as association lists with first-match
  lookup, json.loads always yields unique keys).
* External textual replies (semantic-kernel invoke results) are modelled as
  `Option String`: `none` stands for a falsy result (None or empty), `some s`
  for a truthy reply whose string form is `s`; the source idiom
  `str(result) if result else d` is `pyStrOr`.
* Raised Python exceptions are modelled by `Except String`, the error string
  being `str(e)`.
* The dataclass field `Intent.type` is embedded at its declared type
  `IntentType`; a JSON item whose "type" value is not a string is modelled as
  failing construction (the unchecked Python dataclass would store the raw
  value, which then cannot flow through the typed pipeline).
-/

namespace ChatApiLab

/-- JSON values as produced by json.loads. -/
inductive Json where
  | null : Json
  | bool : Bool → Json
  | num : Rat → Json
  | str : String → Json
  | arr : List Json → Json
  | obj : List (String × Json) → Json

/-- Whether a JSON value is an object (a Python dict). -/
def Json.isObj : Json → Bool
  | .obj _ => true
  | _ => false

/-- First-match association lookup, modelling Python dict indexing
(json.loads gives unique keys, so first-match agrees with dict access). -/
def Json.lookup (fields : List (String × Json)) (key : String) : Option Json :=
  match fields with
  | [] => none
  | (k, v) :: rest => if k = key then some v else Json.lookup rest key

/-- The five intent types of models/intent.py (IntentType, a string enum). -/
inductive IntentType where
  | M365Email : IntentType
  | M365Calendar : IntentType
  | M365Files : IntentType
  | M365People : IntentType
  | GeneralKnowledge : IntentType
deriving DecidableEq

/-- The string value of each enum member. -/
def IntentType.value : IntentType → String
  | .M365Email => "M365Email"
  | .M365Calendar => "M365Calendar"
  | .M365Files => "M365Files"
  | .M365People => "M365People"
  | .GeneralKnowledge => "GeneralKnowledge"

/-- The enum constructor IntentType(s) on a string: `some` member on a valid
value, `none` modelling the ValueError raised on any other string. -/
def IntentType.ofString? (s : String) : Option IntentType :=
  if s = "M365Email" then some .M365Email
  else if s = "M365Calendar" then some .M365Calendar
  else if s = "M365Files" then some .M365Files
  else if s = "M365People" then some .M365People
  else if s = "GeneralKnowledge" then some .GeneralKnowledge
  else none

/-- Membership in the four M365 intent types (Intent.is_m365_intent reads
only the type, so it is stated on IntentType). -/
def IntentType.is_m365_intent : IntentType → Bool
  | .GeneralKnowledge => false
  | _ => true

/-- The Intent dataclass of models/intent.py.  The query and confidence
values come from unvalidated JSON, so they are kept as raw JSON values
(the source performs no validation on them). -/
structure Intent where
  type : IntentType
  query : Json
  confidence : Option Json := none

/-- The single-element GeneralKnowledge fallback built from the original
raw query text (used by both parsers of the classification step). -/
def Intent.gkFallback (original_query : String) : Intent :=
  { type := .GeneralKnowledge, query := .str original_query }

/-- The AgentResponse dataclass of models/agent_response.py. -/
structure AgentResponse where
  agent : String
  intent_type : IntentType
  content : String
  success : Bool := true
  error : Option String := none
  metadata : List (String × Json) := []

/-- The Python idiom `str(result) if result else d` under the Option
encoding of external replies. -/
def pyStrOr (r : Option String) (d : String) : String :=
  match r with
  | none => d
  | some s => s

/-! ## IntentPlugin.parse_intent_response (plugins/intent_plugin.py 95-138) -/

/-- Classification of the per-item exceptions inside the parsing loop:
`caught` for KeyError/ValueError (the except clause drops the item and
continues), `uncaught` for TypeError (indexing a non-dict item), which
escapes the loop. -/
inductive ItemErr where
  | caught : ItemErr
  | uncaught : ItemErr
deriving DecidableEq

/-- One iteration of the parsing loop of parse_intent_response:
`Intent(type=IntentType(item["type"]), query=item["query"],
confidence=item.get("confidence"))`, with argument evaluation order
type, query, confidence.  Missing keys raise KeyError and invalid enum
strings (or non-string type values) raise ValueError, both caught;
indexing a non-dict raises TypeError, uncaught. -/
def parseIntentItem (item : Json) : Except ItemErr Intent :=
  match item with
  | .obj fields =>
    match Json.lookup fields "type" with
    | none => .error .caught
    | some tv =>
      match tv with
      | .str s =>
        match IntentType.ofString? s with
        | none => .error .caught
        | some t =>
          match Json.lookup fields "query" with
          | none => .error .caught
          | some qv => .ok { type := t, query := qv, confidence := Json.lookup fields "confidence" }
      | _ => .error .caught
  | _ => .error .uncaught

/-- The parsing loop: caught per-item errors drop the item and continue,
an uncaught error aborts the whole call. -/
def collectIntents : List Json → Except ItemErr (List Intent)
  | [] => .ok []
  | item :: rest =>
    match parseIntentItem item with
    | .ok i =>
      match collectIntents rest with
      | .ok is => .ok (i :: is)
      | .error e => .error e
    | .error .caught => collectIntents rest
    | .error .uncaught => .error .uncaught

/-- IntentPlugin.parse_intent_response.  The input is the outcome of
json.loads on the reply text: `.error ()` models a JSONDecodeError (caught,
fallback), `.ok v` the decoded value.  A non-list value, an empty list, or
a parse yielding no valid items all degrade to the single-element
GeneralKnowledge fallback carrying the original query. -/
def parse_intent_response (decoded : Except Unit Json) (original_query : String) :
    Except ItemErr (List Intent) :=
  match decoded with
  | .error _ => .ok [Intent.gkFallback original_query]
  | .ok (.arr items) =>
    if items.isEmpty then .ok [Intent.gkFallback original_query]
    else
      match collectIntents items with
      | .error e => .error e
      | .ok intents =>
        if intents.isEmpty then .ok [Intent.gkFallback original_query]
        else .ok intents
  | .ok _ => .ok [Intent.gkFallback original_query]

/-! ## OrchestratorAgentApp._analyze_intent (agent/orchestrator_agent.py 288-319) -/

/-- Outcome of the classification call as seen by _analyze_intent:
the kernel invoke raises, or the result is falsy (None or empty, turned
into the literal text "[]" before decoding), or json.loads raises on the
reply, or the reply decodes to a JSON value. -/
inductive Reply where
  | raises : String → Reply
  | falsy : Reply
  | notJson : String → Reply
  | decoded : Json → Reply

/-- The constructor call `Intent(**item)` inside the list comprehension of
_analyze_intent.  It requires a dict whose keys are among type, query,
confidence and include type and query (otherwise TypeError), and a type
value naming an enum member (otherwise ValueError in post-init); all these
exceptions are caught by the enclosing handler of _analyze_intent. -/
def pyIntentKwargs (item : Json) : Except Unit Intent :=
  match item with
  | .obj fields =>
    if fields.any (fun kv => kv.1 ≠ "type" && kv.1 ≠ "query" && kv.1 ≠ "confidence") then
      .error ()
    else
      match Json.lookup fields "type", Json.lookup fields "query" with
      | some (.str s), some qv =>
        match IntentType.ofString? s with
        | some t => .ok { type := t, query := qv, confidence := Json.lookup fields "confidence" }
        | none => .error ()
      | some _, some _ => .error ()
      | _, _ => .error ()
  | _ => .error ()

/-- The list comprehension `[Intent(**item) for item in data]`: the first
failing item aborts the whole comprehension. -/
def buildIntents : List Json → Except Unit (List Intent)
  | [] => .ok []
  | item :: rest =>
    match pyIntentKwargs item with
    | .error e => .error e
    | .ok i =>
      match buildIntents rest with
      | .error e => .error e
      | .ok is => .ok (i :: is)

/-- Iterating `for item in data` over the decoded value and building the
comprehension.  Lists iterate their elements; strings iterate their
characters and dicts their keys, so any nonempty string or dict makes the
first `Intent(**item)` raise TypeError, while the empty ones produce the
empty list; other values are not iterable (TypeError).  All raises are
caught by _analyze_intent and become the fallback. -/
def analyzeDecoded (v : Json) (query : String) : List Intent :=
  match v with
  | .arr items =>
    match buildIntents items with
    | .ok intents => intents
    | .error _ => [Intent.gkFallback query]
  | .str s => if s.isEmpty then [] else [Intent.gkFallback query]
  | .obj fields => if fields.isEmpty then [] else [Intent.gkFallback query]
  | _ => [Intent.gkFallback query]

/-- OrchestratorAgentApp._analyze_intent: invoke the intent plugin, treat a
falsy result as the text "[]", decode, build Intent objects; any exception
along the way falls back to the single GeneralKnowledge intent on the raw
query. -/
def analyze_intent (reply : Reply) (query : String) : List Intent :=
  match reply with
  | .raises _ => [Intent.gkFallback query]
  | .notJson _ => [Intent.gkFallback query]
  | .falsy => analyzeDecoded (.arr []) query
  | .decoded v => analyzeDecoded v query

/-! ## Per-intent execution (agent/orchestrator_agent.py 371-493) -/

/-- The raw kernel-invoke level seen by the executor: for an M365 intent it
invokes the named plugin function with the sub-query, for GeneralKnowledge
it invokes AnswerGeneralQuestion.  Each call either raises (`Except.error`
with the exception message) or returns a reply (`Option String`, `none`
falsy). -/
structure Responders where
  m365 : String → Json → Except String (Option String)
  gk : Json → Except String (Option String)

/-- OrchestratorAgentApp._execute_m365_plugin: wrap the invoke result,
a falsy result becoming "No response received.", always success; a raised
exception propagates to the caller. -/
def execute_m365_plugin (rs : Responders) (function_name : String) (query : Json)
    (intent_type : IntentType) : Except String AgentResponse :=
  match rs.m365 function_name query with
  | .error e => .error e
  | .ok r =>
    .ok { agent := "m365_copilot", intent_type := intent_type,
          content := pyStrOr r "No response received.", success := true }

/-- OrchestratorAgentApp._execute_general_knowledge: wrap the invoke result,
a falsy result becoming the unable-to-answer text, always success; a raised
exception propagates to the caller. -/
def execute_general_knowledge (rs : Responders) (query : Json) :
    Except String AgentResponse :=
  match rs.gk query with
  | .error e => .error e
  | .ok r =>
    .ok { agent := "azure_openai", intent_type := .GeneralKnowledge,
          content := pyStrOr r "I\u0027m unable to answer that question.", success := true }

/-- The try-block of _execute_agent_for_intent: the switch on intent.type.
Under the typed embedding the enum is exhaustive, so the defensive
unknown-type else branch of the source is unreachable. -/
def dispatch_intent (rs : Responders) (intent : Intent) : Except String AgentResponse :=
  match intent.type with
  | .M365Email => execute_m365_plugin rs "QueryEmails" intent.query .M365Email
  | .M365Calendar => execute_m365_plugin rs "QueryCalendar" intent.query .M365Calendar
  | .M365Files => execute_m365_plugin rs "QueryFiles" intent.query .M365Files
  | .M365People => execute_m365_plugin rs "QueryPeople" intent.query .M365People
  | .GeneralKnowledge => execute_general_knowledge rs intent.query

/-- OrchestratorAgentApp._execute_agent_for_intent: run the dispatch and
catch every raised exception, converting it into the failed AgentResponse
with content "Error: " plus the message and error set to the message. -/
def execute_agent_for_intent (rs : Responders) (intent : Intent) : AgentResponse :=
  match dispatch_intent rs intent with
  | .ok r => r
  | .error e =>
    { agent := intent.type.value, intent_type := intent.type,
      content := "Error: " ++ e, success := false, error := some e }

/-- The conversion applied by the parallel gather loop of _execute_agents to
an exception that escaped a branch: a failed AgentResponse built from the
intent at that index.  Note the error field is not set there. -/
def parallelErrorResponse (intent : Intent) (e : String) : AgentResponse :=
  { agent := intent.type.value, intent_type := intent.type,
    content := "Error: " ++ e, success := false }

/-- The parallel mode of _execute_agents: gather all branch outcomes with
return_exceptions=True (order preserved), then walk the outcomes by index,
keeping responses and converting escaped exceptions via the intent at the
same index. -/
def execute_agents_parallel (branch : Intent → Except String AgentResponse)
    (intents : List Intent) : List AgentResponse :=
  let responses := intents.map branch
  (intents.zip responses).map fun p =>
    match p.2 with
    | .ok r => r
    | .error e => parallelErrorResponse p.1 e

/-- OrchestratorAgentApp._execute_agents: parallel gather with the exception
guard, or a strict sequential loop, both over _execute_agent_for_intent. -/
def execute_agents (rs : Responders) (enable_parallel_execution : Bool)
    (intents : List Intent) : List AgentResponse :=
  if enable_parallel_execution then
    execute_agents_parallel (fun intent => .ok (execute_agent_for_intent rs intent)) intents
  else
    intents.map (execute_agent_for_intent rs)

/-! ## Plugin-level responders -/

/-- AzureOpenAIPlugin.answer_general_question (azure_openai_plugin.py 39-65):
a falsy completion result becomes the fixed at-the-moment fallback text. -/
def answer_general_question (completion_result : Option String) : String :=
  pyStrOr completion_result "I\u0027m unable to answer that question at the moment."

/-- The GeneralKnowledge responder as realized by AzureOpenAIPlugin: the
completion call either raises (propagates through kernel.invoke) or
returns a reply that the plugin normalizes to a nonempty answer string. -/
def gk_responder (completion : Json → Except String (Option String)) :
    Json → Except String (Option String) :=
  fun question =>
    match completion question with
    | .error e => .error e
    | .ok r => .ok (some (answer_general_question r))

/-- Python substring membership `pat in hay` on character lists. -/
def containsSub (pat : List Char) : List Char → Bool
  | [] => pat.isPrefixOf []
  | c :: t => pat.isPrefixOf (c :: t) || containsSub pat t

/-- Python substring membership `pat in hay` on strings. -/
def pyIn (pat hay : String) : Bool :=
  containsSub pat.data hay.data

/-- Python str.lower applied characterwise to the decoded character list
(the tested patterns and the messages of interest are ASCII). -/
def pyLower (s : String) : String := ⟨s.data.map Char.toLower⟩

/-- The user-facing messages of the error mapping in
M365CopilotPlugin._call_copilot_chat_api (m365_copilot_plugin.py 253-270). -/
def sessionExpiredMessage : String := "Your session has expired. Please log in again."

/-- Mapped message for the 403/forbidden pattern. -/
def noLicenseMessage : String :=
  "You don\u0027t have access to Microsoft 365 Copilot. Please contact your administrator to verify your license."

/-- Mapped message for the 404/not-found pattern. -/
def notAvailableMessage : String := "The Copilot service is not available. Please try again later."

/-- Mapped message for the 500/server-error pattern. -/
def serverErrorMessage : String := "The Copilot service encountered an error. Please try again later."

/-- The except-clause of _call_copilot_chat_api: lowercase the exception
message and test the four pattern groups in order; `none` means the
exception is re-raised. -/
def map_copilot_error (ex_msg : String) : Option String :=
  let m := pyLower ex_msg
  if pyIn "401" m || pyIn "unauthorized" m then some sessionExpiredMessage
  else if pyIn "403" m || pyIn "forbidden" m then some noLicenseMessage
  else if pyIn "404" m || pyIn "not found" m then some notAvailableMessage
  else if pyIn "500" m || pyIn "server error" m then some serverErrorMessage
  else none

/-- Outcome of the try-body of _call_copilot_chat_api (conversation
creation plus chat message): it returns a response text or raises. -/
inductive CopilotCall where
  | returns : String → CopilotCall
  | raises : String → CopilotCall

/-- M365CopilotPlugin._call_copilot_chat_api: a successful body returns its
text; a raised exception is mapped to a user-facing message when it matches
one of the four patterns and re-raised otherwise. -/
def call_copilot_chat_api (outcome : CopilotCall) : Except String String :=
  match outcome with
  | .returns text => .ok text
  | .raises msg =>
    match map_copilot_error msg with
    | some user => .ok user
    | none => .error msg

/-- The M365 responder as realized by M365CopilotPlugin: every Query*
function delegates to _call_copilot_chat_api with the sub-query. -/
def m365_responder (outcome : String → Json → CopilotCall) :
    String → Json → Except String (Option String) :=
  fun function_name query =>
    match call_copilot_chat_api (outcome function_name query) with
    | .ok s => .ok (some s)
    | .error e => .error e

/-! ## The message handler (agent/orchestrator_agent.py 109-208) -/

/-- Python default whitespace for str.strip (ASCII part; the inputs of
interest contain no other whitespace). -/
def isPySpace (c : Char) : Bool :=
  c = ' ' || c = '\t' || c = '\n' || c = '\r' || c = '\x0b' || c = '\x0c'

/-- Python str.strip(): drop whitespace from both ends. -/
def pyStrip (s : String) : String :=
  ⟨(((s.data.dropWhile isPySpace).reverse.dropWhile isPySpace).reverse)⟩

/-- The user message computed by the handler:
`context.activity.text.strip() if context.activity.text else ""`. -/
def userMessageOf (text : Option String) : String :=
  match text with
  | none => ""
  | some t => pyStrip t

/-- The MAX_MESSAGE_LENGTH constant of orchestrator_agent.py. -/
def MAX_MESSAGE_LENGTH : Nat := 4000

/-- Rejection message for an empty or whitespace-only input. -/
def emptyMessage : String := "Please enter a message."

/-- Rejection message for an over-length input (the f-string with
MAX_MESSAGE_LENGTH interpolated). -/
def tooLongMessage : String := "Message too long. Maximum 4000 characters allowed."

/-- The fixed abort message of the asyncio.TimeoutError handler. -/
def timeoutMessage : String :=
  "The request timed out. Please try a simpler query or try again later."

/-- The fixed abort message of the generic exception handler. -/
def genericErrorMessage : String :=
  "Sorry, an error occurred processing your request. Please try again."

/-- The MaxAgentCalls truncation applied between classification and
execution (orchestrator_agent.py 163-174): a sequence longer than the
bound keeps its positional prefix, anything else is passed unchanged. -/
def apply_max_agent_calls (max_agent_calls : Nat) (intents : List Intent) : List Intent :=
  if intents.length > max_agent_calls then intents.take max_agent_calls else intents

/-- The orchestration settings consumed by the handler
(models/configuration.py OrchestrationSettings). -/
structure OrchestrationSettings where
  max_agent_calls : Nat := 5
  timeout_seconds : Nat := 30
  enable_parallel_execution : Bool := true

/-- The awaiting stages of the handler body, in order.  The send stage is
the final send_activity of the synthesized reply. -/
inductive Stage where
  | classify : Stage
  | execute : Stage
  | synthesize : Stage
  | send : Stage
deriving DecidableEq

/-- How the turn body runs: to completion, or interrupted during one stage
by expiry of the aggregate asyncio.timeout budget (modelling wall-clock
expiry of timeout_seconds), or by an unexpected exception escaping during
one stage (the generic handler). -/
inductive TurnEvent where
  | completes : TurnEvent
  | timeout : Stage → TurnEvent
  | failure : Stage → TurnEvent
deriving DecidableEq

/-- The message the matching except-clause sends when the body is
interrupted during stage s, if it is. -/
def interruptedAt (e : TurnEvent) (s : Stage) : Option String :=
  match e with
  | .completes => none
  | .timeout s2 => if s2 = s then some timeoutMessage else none
  | .failure s2 => if s2 = s then some genericErrorMessage else none

/-- External collaborators of one turn: the classification reply, the
per-intent responders, the synthesis completion (fed the original query
and the formatted successful responses), and how the body runs. -/
structure TurnEnv where
  reply : Reply
  responders : Responders
  synthesis : String → List (String × String × String) → Option String
  event : TurnEvent

/-- Observable outcome of one turn: the activities sent, and the stages
the handler started. -/
structure TurnResult where
  sent : List String
  invoked : List Stage

/-- SynthesisPlugin.format_responses_for_synthesis: keep only successful
responses and project (agent, intent type value, content); the JSON text
serialization of that shape is abstracted to the triples themselves. -/
def format_responses_for_synthesis (responses : List AgentResponse) :
    List (String × String × String) :=
  (responses.filter (fun r => r.success)).map
    (fun r => (r.agent, r.intent_type.value, r.content))

/-- OrchestratorAgentApp._synthesize_response: invoke synthesis on the
original query and the formatted responses; a falsy result becomes the
fixed fallback text. -/
def synthesize_response (synthesis : String → List (String × String × String) → Option String)
    (original_query : String) (responses : List AgentResponse) : String :=
  pyStrOr (synthesis original_query (format_responses_for_synthesis responses))
    "I couldn\u0027t generate a response."

/-- The on_message_activity handler (orchestrator_agent.py 109-208):
validate the stripped message (both rejections happen before the timeout
block), then run classify, truncate, execute, synthesize and send under
the aggregate timeout; expiry or an unexpected escape at any stage sends
exactly the corresponding fixed abort message. -/
def on_message_activity (settings : OrchestrationSettings) (env : TurnEnv)
    (text : Option String) : TurnResult :=
  let user_message := userMessageOf text
  if user_message = "" then
    { sent := [emptyMessage], invoked := [] }
  else if user_message.length > MAX_MESSAGE_LENGTH then
    { sent := [tooLongMessage], invoked := [] }
  else
    match interruptedAt env.event .classify with
    | some m => { sent := [m], invoked := [.classify] }
    | none =>
      let intents := analyze_intent env.reply user_message
      let intents := apply_max_agent_calls settings.max_agent_calls intents
      match interruptedAt env.event .execute with
      | some m => { sent := [m], invoked := [.classify, .execute] }
      | none =>
        let responses := execute_agents env.responders settings.enable_parallel_execution intents
        match interruptedAt env.event .synthesize with
        | some m => { sent := [m], invoked := [.classify, .execute, .synthesize] }
        | none =>
          let final_response := synthesize_response env.synthesis user_message responses
          match interruptedAt env.event .send with
          | some m => { sent := [m], invoked := [.classify, .execute, .synthesize, .send] }
          | none => { sent := [final_response], invoked := [.classify, .execute, .synthesize, .send] }

/-- The responders of M365CopilotPlugin and AzureOpenAIPlugin assembled
from the external Copilot API outcome and the external completion call
(what _setup_plugins registers for a turn). -/
def mk_responders (outcome : String → Json → CopilotCall)
    (completion : Json → Except String (Option String)) : Responders :=
  { m365 := m365_responder outcome, gk := gk_responder completion }

/-- Responders whose external calls all return falsy replies. -/
def trivialResponders : Responders :=
  { m365 := fun _ _ => .ok none, gk := fun _ => .ok none }

/-- A turn environment with falsy external replies that runs to
completion. -/
def trivialTurnEnv : TurnEnv :=
  { reply := .falsy, responders := trivialResponders,
    synthesis := fun _ _ => none, event := .completes }

/-- An inbound message of 4001 characters whose last character is a
space (so its stripped form has exactly 4000 characters). -/
def overlongPadded : String := ⟨List.replicate 4000 'a' ++ [' ']⟩

/-- An inbound message of 4001 non-whitespace characters. -/
def overlongSolid : String := ⟨List.replicate 4001 'a'⟩

/-! ## Helper lemmas -/

/-- Unfolding of the parallel gather on a cons cell. -/
lemma execute_agents_parallel_cons (branch : Intent → Except String AgentResponse)
    (a : Intent) (t : List Intent) :
    execute_agents_parallel branch (a :: t) =
      (match branch a with
       | .ok r => r
       | .error e => parallelErrorResponse a e) :: execute_agents_parallel branch t := rfl

/-- A branch that never raises makes the parallel gather a plain map. -/
lemma execute_agents_parallel_of_ok (f : Intent → AgentResponse) (l : List Intent) :
    execute_agents_parallel (fun intent => .ok (f intent)) l = l.map f := by
  induction l with
  | nil => rfl
  | cons a t ih => rw [execute_agents_parallel_cons, ih]; rfl

/-- Elementwise description of the parallel gather. -/
lemma execute_agents_parallel_getElem? (branch : Intent → Except String AgentResponse)
    (l : List Intent) (i : Nat) :
    (execute_agents_parallel branch l)[i]? =
      (l[i]?).map (fun intent =>
        match branch intent with
        | .ok r => r
        | .error e => parallelErrorResponse intent e) := by
  induction l generalizing i with
  | nil => rfl
  | cons a t ih =>
    rw [execute_agents_parallel_cons]
    cases i with
    | zero => simp
    | succ n => simpa using ih n

/-- The letter a is not Python whitespace. -/
lemma isPySpace_a : isPySpace 'a' = false := by decide

/-- The space character is Python whitespace. -/
lemma isPySpace_space : isPySpace ' ' = true := by decide

/-- Stripping leaves a run of the letter a unchanged from the left. -/
lemma dropWhile_replicate_a (n : Nat) :
    List.dropWhile isPySpace (List.replicate n 'a') = List.replicate n 'a' := by
  cases n with
  | zero => rfl
  | succ m =>
    rw [List.replicate_succ]
    simp [List.dropWhile_cons, isPySpace_a]

/-- Python strip of a pure run of the letter a is the identity. -/
lemma pyStrip_replicate_a (n : Nat) :
    pyStrip ⟨List.replicate n 'a'⟩ = ⟨List.replicate n 'a'⟩ := by
  show (⟨(((List.replicate n 'a').dropWhile isPySpace).reverse.dropWhile
      isPySpace).reverse⟩ : String) = ⟨List.replicate n 'a'⟩
  rw [dropWhile_replicate_a, List.reverse_replicate, dropWhile_replicate_a,
    List.reverse_replicate]

/-- Python strip of a run of the letter a with one trailing space removes
exactly the space. -/
lemma pyStrip_replicate_a_space (n : Nat) :
    pyStrip ⟨List.replicate n 'a' ++ [' ']⟩ = ⟨List.replicate n 'a'⟩ := by
  show (⟨(((List.replicate n 'a' ++ [' ']).dropWhile isPySpace).reverse.dropWhile
      isPySpace).reverse⟩ : String) = ⟨List.replicate n 'a'⟩
  cases n with
  | zero => rfl
  | succ m =>
    have h1 : (List.replicate (m + 1) 'a' ++ [' ']).dropWhile isPySpace
        = List.replicate (m + 1) 'a' ++ [' '] := by
      rw [List.replicate_succ, List.cons_append]
      simp [List.dropWhile_cons, isPySpace_a, List.replicate_succ]
    have h2 : (List.replicate (m + 1) 'a' ++ [' ']).reverse
        = ' ' :: List.replicate (m + 1) 'a' := by
      rw [List.reverse_append, List.reverse_replicate]
      rfl
    have h3 : (' ' :: List.replicate (m + 1) 'a').dropWhile isPySpace
        = List.replicate (m + 1) 'a' := by
      simp [List.dropWhile_cons, isPySpace_space, dropWhile_replicate_a, isPySpace_a]
    rw [h1, h2, h3, List.reverse_replicate]

/-- On a JSON object, the per-item parser of parse_intent_response only
raises caught exceptions. -/
lemma parseIntentItem_obj_ne_uncaught (fields : List (String × Json)) :
    parseIntentItem (.obj fields) ≠ .error .uncaught := by
  intro h
  unfold parseIntentItem at h
  repeat' split at h
  all_goals simp_all

/-- Under an all-objects input the parsing loop never crashes and returns
exactly the items that parse. -/
lemma collectIntents_all_obj (items : List Json) (h : items.all Json.isObj = true) :
    collectIntents items =
      .ok (items.filterMap (fun item => (parseIntentItem item).toOption)) := by
  induction items with
  | nil => rfl
  | cons a t ih =>
    rw [List.all_cons, Bool.and_eq_true] at h
    obtain ⟨ha, ht⟩ := h
    have hrec := ih ht
    cases hp : parseIntentItem a with
    | ok i => simp [collectIntents, hp, hrec, List.filterMap_cons, Except.toOption]
    | error e =>
      cases e with
      | caught => simp [collectIntents, hp, hrec, List.filterMap_cons, Except.toOption]
      | uncaught =>
        exfalso
        cases a <;> simp [Json.isObj] at ha
        exact parseIntentItem_obj_ne_uncaught _ hp

/-! ## Claim theorems -/

/-- C1: the claim says the classification step never returns an empty
sequence and maps an empty/null completion reply to the single
GeneralKnowledge fallback on the raw query.  The code disagrees: a falsy
completion reply is turned into the text "[]", which decodes to an empty
JSON list, and _analyze_intent then returns the empty intent sequence, not
the fallback (its inline parser has no empty-list check, unlike the tested
IntentPlugin.parse_intent_response). -/
theorem c1_classification_returns_empty_on_empty_reply :
    analyze_intent Reply.falsy "What is Docker?" = [] ∧
    analyze_intent Reply.falsy "What is Docker?" ≠ [Intent.gkFallback "What is Docker?"] := by
  constructor
  · rfl
  · intro h
    simp [analyze_intent, analyzeDecoded, buildIntents] at h

/-- C2: per-intent execution returns exactly one AgentResponse and never
raises: any error raised by the M365 branch or the general-knowledge branch
(the try-body dispatch_intent) is caught and converted into the failed
AgentResponse with content "Error: " plus the message and error equal to
the message.  Totality of execute_agent_for_intent is its type. -/
theorem c2_per_intent_execution_catches_errors (rs : Responders) (intent : Intent)
    (e : String) (h : dispatch_intent rs intent = .error e) :
    execute_agent_for_intent rs intent =
      { agent := intent.type.value, intent_type := intent.type,
        content := "Error: " ++ e, success := false, error := some e, metadata := [] } := by
  unfold execute_agent_for_intent
  rw [h]

/-- Witness for C2 at a concrete raising responder. -/
theorem c2_per_intent_execution_catches_errors_witness :
    dispatch_intent ⟨fun _ _ => .error "boom", fun _ => .error "boom"⟩
        { type := .GeneralKnowledge, query := .str "q" } = .error "boom" ∧
    execute_agent_for_intent ⟨fun _ _ => .error "boom", fun _ => .error "boom"⟩
        { type := .GeneralKnowledge, query := .str "q" } =
      { agent := "GeneralKnowledge", intent_type := .GeneralKnowledge,
        content := "Error: boom", success := false, error := some "boom", metadata := [] } :=
  ⟨rfl, c2_per_intent_execution_catches_errors _ _ _ rfl⟩

/-- C4: truncation of the classified intent sequence is purely positional:
a sequence longer than max_agent_calls is cut to its first max_agent_calls
elements in original order (elementwise a prefix of the input), and a
sequence within the bound passes unchanged. -/
theorem c4_truncation_is_positional (m : Nat) (intents : List Intent) :
    (intents.length > m → apply_max_agent_calls m intents = intents.take m) ∧
    (intents.length ≤ m → apply_max_agent_calls m intents = intents) ∧
    (∀ i : Nat, i < (apply_max_agent_calls m intents).length →
      (apply_max_agent_calls m intents)[i]? = intents[i]?) := by
  refine ⟨fun h => ?_, fun h => ?_, fun i hi => ?_⟩
  · simp [apply_max_agent_calls, h]
  · simp [apply_max_agent_calls, Nat.not_lt.mpr h]
  · by_cases h : intents.length > m
    · simp only [apply_max_agent_calls, if_pos h] at hi ⊢
      rw [List.length_take] at hi
      rw [List.getElem?_take, if_pos (by omega)]
    · simp only [apply_max_agent_calls, if_neg h]

/-- Witness for C4 at concrete sequences around the bound. -/
theorem c4_truncation_is_positional_witness :
    apply_max_agent_calls 1 [Intent.gkFallback "a", Intent.gkFallback "b"] =
      [Intent.gkFallback "a"] ∧
    apply_max_agent_calls 5 [Intent.gkFallback "a"] = [Intent.gkFallback "a"] :=
  ⟨((c4_truncation_is_positional 1 [Intent.gkFallback "a", Intent.gkFallback "b"]).1
      (by decide)).trans rfl,
   (c4_truncation_is_positional 5 [Intent.gkFallback "a"]).2.1 (by decide)⟩

/-- C5: when the reply of the classifier decodes to a JSON list of objects,
parse_intent_response drops each element failing per-item validation
(missing type or query key, or a type value outside the enumeration)
individually without a crash, returns exactly the remaining valid items in
order, and degrades to the single GeneralKnowledge fallback only when no
valid item remains. -/
theorem c5_parse_drops_invalid_items_individually (items : List Json) (q : String)
    (h : items.all Json.isObj = true) :
    parse_intent_response (.ok (.arr items)) q =
      .ok (if (items.filterMap (fun item => (parseIntentItem item).toOption)).isEmpty
           then [Intent.gkFallback q]
           else items.filterMap (fun item => (parseIntentItem item).toOption)) := by
  have harr : parse_intent_response (.ok (.arr items)) q =
      if items.isEmpty then .ok [Intent.gkFallback q]
      else
        match collectIntents items with
        | .error e => .error e
        | .ok intents =>
          if intents.isEmpty then .ok [Intent.gkFallback q] else .ok intents := rfl
  by_cases hi : items.isEmpty
  · rw [List.isEmpty_iff] at hi
    subst hi
    rfl
  · rw [harr, if_neg hi, collectIntents_all_obj items h]
    by_cases hv : (items.filterMap (fun item => (parseIntentItem item).toOption)).isEmpty
    · simp [hv]
    · simp [hv]

/-- Witness for C5: a valid item followed by an invalid-type item parses to
exactly the valid item. -/
theorem c5_parse_drops_invalid_items_individually_witness :
    parse_intent_response
        (.ok (.arr [.obj [("type", .str "M365Email"), ("query", .str "Check emails")],
                    .obj [("type", .str "Bogus"), ("query", .str "x")]])) "orig" =
      .ok [{ type := .M365Email, query := .str "Check emails" }] :=
  (c5_parse_drops_invalid_items_individually
      [.obj [("type", .str "M365Email"), ("query", .str "Check emails")],
       .obj [("type", .str "Bogus"), ("query", .str "x")]] "orig" rfl).trans rfl

/-- C8 counterexample: the parallel-execution exception guard produces an
AgentResponse with success false whose error field is None, so success
false does not imply that error carries the raw cause (here "boom"). -/
theorem c8_counterexample_parallel_guard_error_none :
    execute_agents_parallel (fun _ => .error "boom")
        [{ type := .GeneralKnowledge, query := .str "q" }] =
      [{ agent := "GeneralKnowledge", intent_type := .GeneralKnowledge,
         content := "Error: boom", success := false, error := none, metadata := [] }] ∧
    (parallelErrorResponse { type := .GeneralKnowledge, query := .str "q" } "boom").success
        = false ∧
    (parallelErrorResponse { type := .GeneralKnowledge, query := .str "q" } "boom").error
        = none :=
  ⟨rfl, rfl, rfl⟩

/-- C8 amended: a failed response carries content "Error: " plus the raw
message in both conversion paths, but the error field carries the raw cause
only in the catch-all conversion of execute_agent_for_intent; the
parallel-execution guard leaves error as None. -/
theorem c8_amended_error_field_by_path (rs : Responders) (intent : Intent) (e : String) :
    (dispatch_intent rs intent = .error e →
      (execute_agent_for_intent rs intent).success = false ∧
      (execute_agent_for_intent rs intent).error = some e ∧
      (execute_agent_for_intent rs intent).content = "Error: " ++ e) ∧
    ((parallelErrorResponse intent e).success = false ∧
     (parallelErrorResponse intent e).error = none ∧
     (parallelErrorResponse intent e).content = "Error: " ++ e) := by
  constructor
  · intro h
    unfold execute_agent_for_intent
    rw [h]
    exact ⟨rfl, rfl, rfl⟩
  · exact ⟨rfl, rfl, rfl⟩

/-- Witness for C8 amended at a concrete raising responder. -/
theorem c8_amended_error_field_by_path_witness :
    (execute_agent_for_intent ⟨fun _ _ => .error "oops", fun _ => .error "oops"⟩
        { type := .M365Email, query := .str "q" }).error = some "oops" ∧
    (parallelErrorResponse { type := .M365Email, query := .str "q" } "oops").error = none :=
  ⟨((c8_amended_error_field_by_path ⟨fun _ _ => .error "oops", fun _ => .error "oops"⟩
      { type := .M365Email, query := .str "q" } "oops").1 rfl).2.1,
   (c8_amended_error_field_by_path ⟨fun _ _ => .error "oops", fun _ => .error "oops"⟩
      { type := .M365Email, query := .str "q" } "oops").2.2.1⟩

/-- C9: a GeneralKnowledge intent whose completion call completes with an
empty/null (falsy) result yields a successful AgentResponse whose content
is exactly the fixed at-the-moment text (produced inside the Azure OpenAI
plugin and passed through unchanged by the executor). -/
theorem c9_general_knowledge_empty_completion
    (m365 : String → Json → Except String (Option String))
    (completion : Json → Except String (Option String)) (q : Json) (c : Option Json)
    (h : completion q = .ok none) :
    execute_agent_for_intent ⟨m365, gk_responder completion⟩
        { type := .GeneralKnowledge, query := q, confidence := c } =
      { agent := "azure_openai", intent_type := .GeneralKnowledge,
        content := "I\u0027m unable to answer that question at the moment.",
        success := true, error := none, metadata := [] } := by
  simp [execute_agent_for_intent, dispatch_intent, execute_general_knowledge,
    gk_responder, answer_general_question, h, pyStrOr]

/-- Witness for C9 at a concrete empty-completion responder. -/
theorem c9_general_knowledge_empty_completion_witness :
    execute_agent_for_intent ⟨fun _ _ => .ok none, gk_responder (fun _ => .ok none)⟩
        { type := .GeneralKnowledge, query := .str "w", confidence := none } =
      { agent := "azure_openai", intent_type := .GeneralKnowledge,
        content := "I\u0027m unable to answer that question at the moment.",
        success := true, error := none, metadata := [] } :=
  c9_general_knowledge_empty_completion _ _ _ _ rfl

/-- C3: for every intent sequence over the (total, never-raising)
per-intent executor, parallel and sequential execution produce equal
result sequences; moreover, in parallel mode over an arbitrary branch
function, the result at index i is determined by the branch outcome at
input intent i alone — an exception escaping that branch becomes a failed
AgentResponse at that index, leaving every other index untouched. -/
theorem c3_parallel_sequential_equivalence (rs : Responders) (intents : List Intent) :
    execute_agents rs true intents = execute_agents rs false intents ∧
    (∀ (branch : Intent → Except String AgentResponse) (i : Nat) (h : i < intents.length),
      (execute_agents_parallel branch intents)[i]? =
        some (match branch (intents.get ⟨i, h⟩) with
              | .ok r => r
              | .error e => parallelErrorResponse (intents.get ⟨i, h⟩) e)) := by
  constructor
  · simp [execute_agents, execute_agents_parallel_of_ok]
  · intro branch i h
    rw [execute_agents_parallel_getElem?, List.getElem?_eq_getElem h]
    simp [List.get_eq_getElem]

/-- Witness for C3 at a singleton intent sequence and a raising branch. -/
theorem c3_parallel_sequential_equivalence_witness :
    execute_agents trivialResponders true [{ type := .GeneralKnowledge, query := .str "q" }] =
      execute_agents trivialResponders false [{ type := .GeneralKnowledge, query := .str "q" }] ∧
    (execute_agents_parallel (fun _ => .error "x")
        [{ type := .GeneralKnowledge, query := .str "q" }])[0]? =
      some (parallelErrorResponse { type := .GeneralKnowledge, query := .str "q" } "x") :=
  ⟨(c3_parallel_sequential_equivalence trivialResponders
      [{ type := .GeneralKnowledge, query := .str "q" }]).1,
   (c3_parallel_sequential_equivalence trivialResponders
      [{ type := .GeneralKnowledge, query := .str "q" }]).2
     (fun _ => .error "x") 0 (by decide)⟩

/-- C6: once validation has passed, expiry of the aggregate timeout budget
during any stage (classification, execution, synthesis or the final send)
aborts the turn and the only activity sent is the fixed timeout message —
no output of a completed stage is emitted. -/
theorem c6_timeout_aborts_with_fixed_message (settings : OrchestrationSettings)
    (env : TurnEnv) (text : Option String) (s : Stage)
    (hev : env.event = .timeout s)
    (h1 : userMessageOf text ≠ "")
    (h2 : (userMessageOf text).length ≤ MAX_MESSAGE_LENGTH) :
    (on_message_activity settings env text).sent = [timeoutMessage] := by
  simp only [on_message_activity]
  rw [if_neg h1, if_neg (Nat.not_lt.mpr h2)]
  cases s <;> simp [interruptedAt, hev]

/-- Witness for C6: a timeout during the execution stage of a valid turn. -/
theorem c6_timeout_aborts_with_fixed_message_witness :
    (on_message_activity {}
        { reply := .falsy, responders := trivialResponders,
          synthesis := fun _ _ => none, event := .timeout .execute }
        (some "hi")).sent = [timeoutMessage] :=
  c6_timeout_aborts_with_fixed_message {}
    { reply := .falsy, responders := trivialResponders,
      synthesis := fun _ _ => none, event := .timeout .execute }
    (some "hi") .execute rfl (by decide) (by decide)

/-- C7 counterexample: the claim quantifies over every inbound message
exceeding 4000 characters, but the handler checks the length of the
stripped message: an input of 4001 characters ending in a space passes
validation and the classifier stage is invoked. -/
theorem c7_counterexample_trailing_whitespace :
    overlongPadded.length = 4001 ∧
    (on_message_activity {} trivialTurnEnv (some overlongPadded)).sent ≠ [tooLongMessage] ∧
    (on_message_activity {} trivialTurnEnv (some overlongPadded)).invoked ≠ [] := by
  have hmsg : userMessageOf (some overlongPadded) = ⟨List.replicate 4000 'a'⟩ :=
    pyStrip_replicate_a_space 4000
  have hlen4000 : (String.mk (List.replicate 4000 'a')).length = 4000 := by
    show (List.replicate 4000 'a').length = 4000
    rw [List.length_replicate]
  have hne : userMessageOf (some overlongPadded) ≠ "" := by
    rw [hmsg]
    intro h
    have hd : List.replicate 4000 'a' = ([] : List Char) := congrArg String.data h
    have hl := congrArg List.length hd
    rw [List.length_replicate] at hl
    exact absurd hl (by decide)
  have hshort : ¬ (userMessageOf (some overlongPadded)).length > MAX_MESSAGE_LENGTH := by
    rw [hmsg, hlen4000]
    decide
  have hrun : on_message_activity {} trivialTurnEnv (some overlongPadded) =
      { sent := ["I couldn\u0027t generate a response."],
        invoked := [.classify, .execute, .synthesize, .send] } := by
    simp only [on_message_activity]
    rw [if_neg hne, if_neg hshort]
    rfl
  refine ⟨?_, ?_, ?_⟩
  · show (List.replicate 4000 'a' ++ [' ']).length = 4001
    rw [List.length_append, List.length_replicate]
    decide
  · rw [hrun]
    decide
  · rw [hrun]
    decide

/-- C7 amended: the two pre-timeout validations act on the stripped
message text: a message stripping to the empty string gets the fixed
prompt and a message whose stripped form exceeds 4000 characters gets the
fixed length rejection, in both cases with no stage invoked (a raw message
over 4000 characters whose stripped form is within the limit is not
rejected). -/
theorem c7_rejection_on_stripped_message (settings : OrchestrationSettings)
    (env : TurnEnv) (text : Option String) :
    (userMessageOf text = "" →
      on_message_activity settings env text = { sent := [emptyMessage], invoked := [] }) ∧
    ((userMessageOf text).length > MAX_MESSAGE_LENGTH →
      on_message_activity settings env text = { sent := [tooLongMessage], invoked := [] }) := by
  constructor
  · intro h
    simp only [on_message_activity]
    rw [if_pos h]
  · intro h
    have hne : userMessageOf text ≠ "" := by
      intro h0
      rw [h0] at h
      exact absurd h (by decide)
    simp only [on_message_activity]
    rw [if_neg hne, if_pos h]

/-- Witness for C7 amended: a whitespace-only input and a 4001-character
solid input. -/
theorem c7_rejection_on_stripped_message_witness :
    on_message_activity {} trivialTurnEnv (some "   ") =
      { sent := [emptyMessage], invoked := [] } ∧
    on_message_activity {} trivialTurnEnv (some overlongSolid) =
      { sent := [tooLongMessage], invoked := [] } := by
  constructor
  · exact (c7_rejection_on_stripped_message {} trivialTurnEnv (some "   ")).1 rfl
  · refine (c7_rejection_on_stripped_message {} trivialTurnEnv (some overlongSolid)).2 ?_
    have hmsg : userMessageOf (some overlongSolid) = ⟨List.replicate 4001 'a'⟩ :=
      pyStrip_replicate_a 4001
    have hlen : (String.mk (List.replicate 4001 'a')).length = 4001 := by
      show (List.replicate 4001 'a').length = 4001
      rw [List.length_replicate]
    rw [hmsg, hlen]
    decide

/-- C10: an M365 intent whose Copilot call raises an error matching one of
the four status patterns (tested in order on the lowercased message)
produces a successful AgentResponse carrying the corresponding mapped
user-facing message; an error matching none of the patterns is re-raised
and reaches the generic failure path of the executor as success false. -/
theorem c10_m365_error_pattern_mapping (t : IntentType) (q : Json) (c : Option Json)
    (completion : Json → Except String (Option String)) (msg : String)
    (ht : t.is_m365_intent = true) :
    (∀ u : String, map_copilot_error msg = some u →
      execute_agent_for_intent (mk_responders (fun _ _ => .raises msg) completion)
          { type := t, query := q, confidence := c } =
        { agent := "m365_copilot", intent_type := t, content := u,
          success := true, error := none, metadata := [] }) ∧
    (map_copilot_error msg = none →
      execute_agent_for_intent (mk_responders (fun _ _ => .raises msg) completion)
          { type := t, query := q, confidence := c } =
        { agent := t.value, intent_type := t, content := "Error: " ++ msg,
          success := false, error := some msg, metadata := [] }) ∧
    ((pyIn "401" (pyLower msg) || pyIn "unauthorized" (pyLower msg)) = true →
      map_copilot_error msg = some sessionExpiredMessage) ∧
    ((pyIn "401" (pyLower msg) || pyIn "unauthorized" (pyLower msg)) = false →
      (pyIn "403" (pyLower msg) || pyIn "forbidden" (pyLower msg)) = true →
      map_copilot_error msg = some noLicenseMessage) ∧
    ((pyIn "401" (pyLower msg) || pyIn "unauthorized" (pyLower msg)) = false →
      (pyIn "403" (pyLower msg) || pyIn "forbidden" (pyLower msg)) = false →
      (pyIn "404" (pyLower msg) || pyIn "not found" (pyLower msg)) = true →
      map_copilot_error msg = some notAvailableMessage) ∧
    ((pyIn "401" (pyLower msg) || pyIn "unauthorized" (pyLower msg)) = false →
      (pyIn "403" (pyLower msg) || pyIn "forbidden" (pyLower msg)) = false →
      (pyIn "404" (pyLower msg) || pyIn "not found" (pyLower msg)) = false →
      (pyIn "500" (pyLower msg) || pyIn "server error" (pyLower msg)) = true →
      map_copilot_error msg = some serverErrorMessage) ∧
    ((pyIn "401" (pyLower msg) || pyIn "unauthorized" (pyLower msg)) = false →
      (pyIn "403" (pyLower msg) || pyIn "forbidden" (pyLower msg)) = false →
      (pyIn "404" (pyLower msg) || pyIn "not found" (pyLower msg)) = false →
      (pyIn "500" (pyLower msg) || pyIn "server error" (pyLower msg)) = false →
      map_copilot_error msg = none) := by
  refine ⟨?_, ?_, ?_, ?_, ?_, ?_, ?_⟩
  · intro u hu
    cases t
    case GeneralKnowledge => simp [IntentType.is_m365_intent] at ht
    all_goals
      simp [execute_agent_for_intent, dispatch_intent, execute_m365_plugin,
        mk_responders, m365_responder, call_copilot_chat_api, hu, pyStrOr]
  · intro hnone
    cases t
    case GeneralKnowledge => simp [IntentType.is_m365_intent] at ht
    all_goals
      simp [execute_agent_for_intent, dispatch_intent, execute_m365_plugin,
        mk_responders, m365_responder, call_copilot_chat_api, hnone,
        IntentType.value]
  · intro h1
    simp [map_copilot_error, h1]
  · intro h1 h2
    simp [map_copilot_error, h1, h2]
  · intro h1 h2 h3
    simp [map_copilot_error, h1, h2, h3]
  · intro h1 h2 h3 h4
    simp [map_copilot_error, h1, h2, h3, h4]
  · intro h1 h2 h3 h4
    simp [map_copilot_error, h1, h2, h3, h4]

/-- Witness for C10: a 401 error on an email intent maps to the
session-expired message with success true. -/
theorem c10_m365_error_pattern_mapping_witness :
    IntentType.M365Email.is_m365_intent = true ∧
    execute_agent_for_intent
        (mk_responders (fun _ _ => .raises "HTTP 401 Unauthorized") (fun _ => .ok none))
        { type := .M365Email, query := .str "mail" } =
      { agent := "m365_copilot", intent_type := .M365Email,
        content := sessionExpiredMessage, success := true, error := none, metadata := [] } :=
  ⟨rfl,
   (c10_m365_error_pattern_mapping .M365Email (.str "mail") none (fun _ => .ok none)
      "HTTP 401 Unauthorized" rfl).1 sessionExpiredMessage (by decide)⟩

end ChatApiLab
